import Mathlib

/-
Verification development for the sandboxed interactive code-execution
sessions of the repository (the five draft REPL implementations under
src/chat/executor/).  Each Python draft is embedded shallowly in its own
namespace:

  * `ChatREPL`   — src/chat/executor/chatgpt/python_docker_repl.py
                   (ast-based splitter, exec/eval wire commands, fixed
                   sentinel line `__REPL_END__:`).
  * `ReplyREPL`  — src/chat/executor/chatgpt/python_docker_reply.py
                   (uuid sentinels, prompt/echo/blank-line output cleaning,
                   `docker rm -f` close).
  * `KernelRepl` — src/chat/executor/python_docker_reply.py (`PythonRepl`,
                   the jupyter-kernel draft: shell reply + IOPub message
                   processing, idempotent close).
  * `PromptREPL` — src/chat/executor/python_docker_repl.py (the
                   prompt-replacement draft that slices 15 characters from
                   the tail of the captured output).

The sandboxed Python interpreter itself is an external process (python
running inside a docker container); its behaviour on the tiny fragments the
claims mention (integer literals, variable lookup, addition, floor
division, assignment) is modelled by `evalE`/`execStmts`.  The Python
standard library helpers the drafts call (`str.splitlines`, `str.strip`,
`textwrap.dedent`, `ast.literal_eval` on integer reprs) are modelled
faithfully for the character set that actually flows through the drafts
(`\n`/`\r\n`/`\r` line endings, ASCII whitespace).  `ast.parse` is an
external parser: a fragment therefore carries its parse outcome (`parsed =
none` models `ast.parse` raising `SyntaxError`).
-/

/-! ### Python string helpers (models of str.splitlines, str.strip, textwrap.dedent) -/

/-- Whitespace characters recognised by Python's `str.strip()`. -/
def isPySpace (c : Char) : Bool :=
  c == ' ' || c == '\t' || c == '\n' || c == '\r' || c == '\x0b' || c == '\x0c'

/-- Strip leading and trailing Python whitespace from a character list. -/
def pyStripChars (cs : List Char) : List Char :=
  ((cs.dropWhile isPySpace).reverse.dropWhile isPySpace).reverse

/-- Model of Python `str.strip()`. -/
def pyStrip (s : String) : String :=
  String.mk (pyStripChars s.data)

/-- Model of Python `str.lstrip()`. -/
def pyLstrip (s : String) : String :=
  String.mk (s.data.dropWhile isPySpace)

/-- Model of Python `str.rstrip()`. -/
def pyRstrip (s : String) : String :=
  String.mk ((s.data.reverse.dropWhile isPySpace).reverse)

/-- Split on the line boundaries `\r\n`, `\r`, `\n`, dropping the final
terminator, exactly as Python's `str.splitlines()` does on the line endings
that occur on this transport.  (`""` gives `[]`, a trailing newline adds no
empty final line.) -/
def splitlinesAux : List Char → List Char → List (List Char)
  | [], acc => if acc.isEmpty then [] else [acc.reverse]
  | '\r' :: '\n' :: rest, acc => acc.reverse :: splitlinesAux rest []
  | '\r' :: rest, acc => acc.reverse :: splitlinesAux rest []
  | '\n' :: rest, acc => acc.reverse :: splitlinesAux rest []
  | c :: rest, acc => splitlinesAux rest (c :: acc)

/-- Model of Python `str.splitlines()`. -/
def pySplitlines (s : String) : List String :=
  (splitlinesAux s.data []).map String.mk

/-- Split on `'\n'` keeping empty pieces, as Python `str.split('\n')` does
(`""` gives `[""]`, a trailing newline yields a final empty piece). -/
def splitNLAux : List Char → List Char → List (List Char)
  | [], acc => [acc.reverse]
  | '\n' :: rest, acc => acc.reverse :: splitNLAux rest []
  | c :: rest, acc => splitNLAux rest (c :: acc)

/-- Model of Python `str.split('\n')`. -/
def splitOnNL (s : String) : List String :=
  (splitNLAux s.data []).map String.mk

/-- Model of Python `'\n'.join(...)`. -/
def joinNL : List String → String
  | [] => ""
  | [x] => x
  | x :: xs => x ++ "\n" ++ joinNL xs

/-- Indentation characters considered by `textwrap.dedent`. -/
def isIndentChar (c : Char) : Bool := c == ' ' || c == '\t'

/-- A line with at least one non-indentation character contributes an
indent to `textwrap.dedent`'s margin computation. -/
def hasContent (l : String) : Bool := l.data.any (fun c => !isIndentChar c)

/-- Leading run of spaces and tabs of a line. -/
def leadingWS (l : String) : List Char := l.data.takeWhile isIndentChar

/-- Longest common prefix of two character lists (the margin reduction
step of `textwrap.dedent`). -/
def lcpChars : List Char → List Char → List Char
  | x :: xs, y :: ys => if x = y then x :: lcpChars xs ys else []
  | _, _ => []

/-- One output line of `textwrap.dedent`: the final
`re.sub(r'(?m)^' + margin, '', text)` removes the margin from every line
that starts with it. -/
def dedentLine (margin : List Char) (l : String) : String :=
  if margin.isPrefixOf l.data then String.mk (l.data.drop margin.length) else l

/-- Model of `textwrap.dedent`: whitespace-only lines are blanked first
(`_whitespace_only_re.sub('', text)`), the margin is the longest common
space/tab prefix of the remaining lines, and it is then stripped from
every line of the blanked text. -/
def pyDedent (text : String) : String :=
  let lines := splitOnNL text
  let normLines := lines.map (fun l => if l ≠ "" ∧ ¬hasContent l then "" else l)
  let indents := (lines.filter hasContent).map leadingWS
  let margin := match indents with
    | [] => []
    | i :: is => is.foldl lcpChars i
  if margin.isEmpty then joinNL normLines
  else joinNL (normLines.map (dedentLine margin))

/-! ### The sandboxed interpreter (external python process), modelled for
the fragments the claims exercise -/

/-- Values of the modelled interpreter: integers and `None`. -/
inductive PyVal where
  | int (n : Int)
  | noneV
  deriving DecidableEq, Repr

/-- Expressions of the modelled interpreter. -/
inductive PyExpr where
  | lit (n : Int)
  | var (x : String)
  | add (a b : PyExpr)
  | floordiv (a b : PyExpr)
  deriving DecidableEq, Repr

/-- Top-level statements of the modelled interpreter. -/
inductive PyStmt where
  | assign (x : String) (e : PyExpr)
  | exprStmt (e : PyExpr)
  deriving DecidableEq, Repr

/-- Interpreter namespace: most recent binding first. -/
abbrev Env : Type := List (String × PyVal)

def lookupEnv : Env → String → Option PyVal
  | [], _ => none
  | (k, v) :: rest, x => if k == x then some v else lookupEnv rest x

def setEnv (env : Env) (x : String) (v : PyVal) : Env := (x, v) :: env

/-- Expression evaluation; `none` models a raised exception (`NameError`,
`TypeError`, `ZeroDivisionError`). -/
def evalE (env : Env) : PyExpr → Option PyVal
  | .lit n => some (.int n)
  | .var x => lookupEnv env x
  | .add a b =>
    match evalE env a, evalE env b with
    | some (.int m), some (.int n) => some (.int (m + n))
    | _, _ => none
  | .floordiv a b =>
    match evalE env a, evalE env b with
    | some (.int m), some (.int n) => if n = 0 then none else some (.int (Int.fdiv m n))
    | _, _ => none

/-- One statement; `none` models a raised exception. -/
def execStmt (env : Env) : PyStmt → Option Env
  | .assign x e => (evalE env e).map (setEnv env x)
  | .exprStmt e => (evalE env e).map (fun _ => env)

/-- Statement sequence as `exec(...)` runs it: the first raising statement
aborts the rest; the returned flag records whether an exception escaped. -/
def execStmts (env : Env) : List PyStmt → Env × Bool
  | [] => (env, false)
  | s :: rest =>
    match execStmt env s with
    | some env1 => execStmts env1 rest
    | none => (env, true)

/-- Decimal digit character. -/
def digitChar : Nat → Char
  | 0 => '0' | 1 => '1' | 2 => '2' | 3 => '3' | 4 => '4'
  | 5 => '5' | 6 => '6' | 7 => '7' | 8 => '8' | _ => '9'

/-- Decimal digits of a natural number (fuel-driven, structural). -/
def natDigits : Nat → Nat → List Char
  | 0, _ => []
  | fuel + 1, n => if n < 10 then [digitChar n] else natDigits fuel (n / 10) ++ [digitChar (n % 10)]

/-- Model of Python `repr` on the modelled values. -/
def pyRepr : PyVal → String
  | .noneV => "None"
  | .int n =>
    if n < 0 then String.mk ('-' :: natDigits (n.natAbs + 1) n.natAbs)
    else String.mk (natDigits (n.natAbs + 1) n.natAbs)

/-- Parse an unsigned decimal numeral. -/
def parseNatChars : List Char → Option Nat
  | [] => none
  | cs =>
    cs.foldl (fun acc c =>
      match acc with
      | none => none
      | some n => if '0' ≤ c ∧ c ≤ '9' then some (n * 10 + (c.toNat - '0'.toNat)) else none)
      (some 0)

/-- Model of `ast.literal_eval` on the reprs the drafts produce (integers;
the source falls back to returning the raw repr string for anything it
cannot parse, which never happens for the modelled values). -/
def pyLiteralEval (r : String) : PyVal :=
  match r.data with
  | '-' :: rest =>
    match parseNatChars rest with
    | some n => .int (-(n : Int))
    | none => .noneV
  | cs =>
    match parseNatChars cs with
    | some n => .int (n : Int)
    | none => .noneV

/-! ### Syntactic view of `ast.parse` output, for the line-based splitter
of `PythonDockerREPL.run` (src/chat/executor/chatgpt/python_docker_repl.py,
lines 29–42) -/

/-- Kinds of top-level `ast` nodes the splitter distinguishes: an
`ast.Expr` (bare expression) versus everything else (assignment, control
flow, definition, ...). -/
inductive AstKind where
  | exprK
  | assignK
  | controlK
  | defK
  deriving DecidableEq, Repr

/-- One element of `ast.parse(code).body`, with its 1-based `lineno` and
`end_lineno`. -/
structure AstUnit where
  kind : AstKind
  lineno : Nat
  end_lineno : Nat
  deriving DecidableEq, Repr

/-- A syntactically valid fragment as the splitter sees it:
`lines = code.splitlines()` together with `ast.parse(code).body`. -/
structure ParsedSrc where
  lines : List String
  body : List AstUnit
  deriving DecidableEq, Repr

/-- Lines 29–42 of `PythonDockerREPL.run`: when the last top-level unit is
an `ast.Expr`, slice its lines (`lines[start:end]`) out as the trailing
expression and keep `lines[:start]` as the body; otherwise the whole
fragment is the body.  Returned as line lists; the source joins each with
`"\n"`. -/
def splitLinesOf (f : ParsedSrc) : List String × Option (List String) :=
  match f.body.getLast? with
  | some u =>
    if u.kind = AstKind.exprK then
      let start := u.lineno - 1
      (f.lines.take start, some ((f.lines.drop start).take (u.end_lineno - start)))
    else (f.lines, none)
  | none => (f.lines, none)

/-! ### ChatREPL — src/chat/executor/chatgpt/python_docker_repl.py -/

namespace ChatREPL

/-- A fragment submitted to `run`, carrying the outcome of `ast.parse`:
`parsed = none` models `ast.parse(code)` raising `SyntaxError` (the call
at line 29 is not guarded by any `try`). -/
structure SemFragment where
  text : String
  parsed : Option (List PyStmt)
  deriving DecidableEq, Repr

/-- The wire commands `run` sends (lines 44–56).  `execBody` stands for
`exec(json.dumps(body_text))`, `evalExpr` for
`_repl_result = eval(json.dumps(last_expr))`, `setNone` for
`_repl_result = None`, and `printSentinel` for
`print('__REPL_END__:', repr(_repl_result))`; the payloads are carried in
parsed form since the interpreter re-parses the quoted text. -/
inductive Command where
  | execBody (body : List PyStmt)
  | evalExpr (e : PyExpr)
  | setNone
  | printSentinel
  deriving DecidableEq, Repr

/-- Errors `run` can raise locally: the unguarded `ast.parse` failure and
the `pexpect.TIMEOUT` of `self.child.expect` when the sentinel line never
appears. -/
inductive ReplError where
  | syntaxError
  | timeout
  deriving DecidableEq, Repr

/-- Session state: the interpreter namespace inside the container and
whether the container process is still alive. -/
structure ReplState where
  env : Env
  containerAlive : Bool
  deriving DecidableEq, Repr

/-- The fixed marker string of lines 52 and 59: both the printed marker
and the `expect` pattern use the literal `__REPL_END__:`. -/
def sentinelMark : String := "__REPL_END__:"

/-- The delimiter `run` watches for on a given call (the `expect` pattern
of line 59): it is the same fixed string for every call and session. -/
def sentinelOf (_f : SemFragment) : String := sentinelMark

/-- The line `print('__REPL_END__:', repr(_repl_result))` writes when
`_repl_result` holds `v`. -/
def markerLine (v : PyVal) : String := sentinelMark ++ " " ++ pyRepr v

/-- The `expect(r"__REPL_END__:\s*(.*)\r?\n")` match followed by
`.strip()` on the captured group (lines 59–60), applied to one line. -/
def extractRepr (line : String) : Option String :=
  if sentinelMark.data.isPrefixOf line.data then
    some (String.mk (pyStripChars (line.data.drop sentinelMark.data.length)))
  else none

/-- Lines 33–42 on the parsed body: the trailing `ast.Expr` (if any) is
separated from the statements before it. -/
def splitUnits (units : List PyStmt) : List PyStmt × Option PyExpr :=
  match units.getLast? with
  | some (.exprStmt e) => (units.dropLast, some e)
  | _ => (units, none)

/-- Lines 44–52: the command list sent for one call.  The body is sent
only when its text is non-blank (`if body_text.strip():`), which for
parsed fragments means: when there are statements before the trailing
expression. -/
def buildCommands (body : List PyStmt) (lastE : Option PyExpr) : List Command :=
  (if body.isEmpty then [] else [Command.execBody body]) ++
    (match lastE with
      | some e => [Command.evalExpr e]
      | none => [Command.setNone]) ++
    [Command.printSentinel]

/-- Effect of one wire command on the interpreter, together with the
lines it prints that match the sentinel pattern.  A raising `eval` leaves
`_repl_result` untouched, and `print(..., repr(_repl_result))` itself
raises `NameError` (printing nothing) when `_repl_result` was never
assigned — exactly the behaviour of the interactive interpreter. -/
def stepCommand (env : Env) : Command → Env × List String
  | .execBody body => ((execStmts env body).1, [])
  | .evalExpr e =>
    match evalE env e with
    | some v => (setEnv env "_repl_result" v, [])
    | none => (env, [])
  | .setNone => (setEnv env "_repl_result" PyVal.noneV, [])
  | .printSentinel =>
    match lookupEnv env "_repl_result" with
    | some v => (env, [markerLine v])
    | none => (env, [])

/-- Send the command list (lines 55–56) and collect the sentinel-bearing
output. -/
def runCommands (env : Env) : List Command → Env × List String
  | [] => (env, [])
  | c :: cs =>
    let r1 := stepCommand env c
    let r2 := runCommands r1.1 cs
    (r2.1, r1.2 ++ r2.2)

/-- The blocking `expect` scan: the first line matching the sentinel
pattern yields the captured repr; no match within the timeout raises
`pexpect.TIMEOUT`. -/
def findMarker : List String → Option String
  | [] => none
  | l :: ls =>
    match extractRepr l with
    | some r => some r
    | none => findMarker ls

/-- Result of one `run` call: the value returned (or the local error
raised), the session state afterwards, the commands actually sent, and
the repr captured from the sentinel line. -/
structure RunRet where
  result : Except ReplError (Option PyVal)
  state : ReplState
  sent : List Command
  captured : Option String
  deriving Repr

/-- `PythonDockerREPL.run` (lines 21–70).  `ast.parse` failure propagates
(nothing is sent); otherwise the fragment is split, the commands are sent,
and the sentinel line is awaited: its repr is `ast.literal_eval`ed back
(`'None'` becomes the absent value), while a missing sentinel raises
`pexpect.TIMEOUT`.  The container is never stopped on any path. -/
def run (s : ReplState) (f : SemFragment) : RunRet :=
  match f.parsed with
  | none => ⟨.error .syntaxError, s, [], none⟩
  | some units =>
    let bl := splitUnits units
    let cmds := buildCommands bl.1 bl.2
    let eo := runCommands s.env cmds
    let res : Except ReplError (Option PyVal) × Option String :=
      match findMarker eo.2 with
      | some r => (.ok (if r = "None" then none else some (pyLiteralEval r)), some r)
      | none => (.error .timeout, none)
    ⟨res.1, ⟨eo.1, s.containerAlive⟩, cmds, res.2⟩

/-- A fresh session: empty interpreter namespace, container alive. -/
def initState : ReplState := ⟨[], true⟩

/-- The fragment `x = 10` with its parse. -/
def fragAssign : SemFragment := ⟨"x = 10", some [.assign "x" (.lit 10)]⟩

/-- The fragment `x + 5` with its parse. -/
def fragExpr : SemFragment := ⟨"x + 5", some [.exprStmt (.add (.var "x") (.lit 5))]⟩

/-- The fragment `1//0` with its parse: its trailing expression raises
`ZeroDivisionError` in the interpreter. -/
def fragDiv : SemFragment := ⟨"1//0", some [.exprStmt (.floordiv (.lit 1) (.lit 0))]⟩

/-- A syntactically invalid fragment: `ast.parse("def f(")` raises
`SyntaxError`, so its parse outcome is absent. -/
def badFrag : SemFragment := ⟨"def f(", none⟩

end ChatREPL

/-! ### ReplyREPL — src/chat/executor/chatgpt/python_docker_reply.py -/

namespace ReplyREPL

/-- The per-call sentinel of `_send` (line 33):
`f"__END_{uuid.uuid4().hex}__"` applied to the hex digest drawn for the
call. -/
def mkSentinel (uuidHex : String) : String := "__END_" ++ uuidHex ++ "__"

/-- The `sentinel_cmd` of `_send` (line 34): `f"print({sentinel!r})"`. -/
def sentinel_cmd (sentinel : String) : String := "print('" ++ sentinel ++ "')"

/-- The payload `_send` writes before the sentinel command (line 32):
`textwrap.dedent(code.rstrip()) + "\n"`. -/
def sendPayload (code : String) : String := pyDedent (pyRstrip code) ++ "\n"

/-- One application of `PROMPT_RE.sub("", ln)`: the anchored pattern
`^(>>> |\.\.\. )` removes at most one prompt at the start of the line. -/
def stripPrompt (ln : String) : String :=
  if ">>> ".data.isPrefixOf ln.data then String.mk (ln.data.drop 4)
  else if "... ".data.isPrefixOf ln.data then String.mk (ln.data.drop 4)
  else ln

/-- The echo set of `_clean_output` (line 51):
`set(textwrap.dedent(code).splitlines())`. -/
def echoLines (code : String) : List String := pySplitlines (pyDedent code)

/-- The filtering loop of `_clean_output` (lines 52–65): split the raw
capture into lines, strip prompts, then drop every line that echoes the
code, echoes the sentinel command, or is blank — wherever it occurs. -/
def cleanedLines (raw code scmd : String) : List String :=
  ((pySplitlines raw).map stripPrompt).filter
    (fun ln => !(echoLines code).contains ln && ln != scmd && pyStrip ln != "")

/-- `_clean_output` (lines 50–67): the surviving lines joined with
newlines and stripped. -/
def clean_output (raw code scmd : String) : String :=
  pyStrip (joinNL (cleanedLines raw code scmd))

/-- State of the draft's handle for `close`: whether the spawned child is
alive. -/
structure RState where
  childAlive : Bool
  deriving DecidableEq, Repr

/-- Observable effects of `close` (lines 76–83): sending `exit()` and
running `docker rm -f <container> >/dev/null 2>&1`. -/
inductive RAction where
  | sendExit
  | dockerRmF
  deriving DecidableEq, Repr

/-- `close` (lines 76–83): the exit instruction is sent only to a live
child (exceptions suppressed), but `os.system("docker rm -f ...")` runs
unconditionally on every call; afterwards the child is gone. -/
def close (s : RState) : RState × List RAction :=
  (⟨false⟩, (if s.childAlive then [RAction.sendExit] else []) ++ [RAction.dockerRmF])

end ReplyREPL

/-! ### KernelRepl — src/chat/executor/python_docker_reply.py (`PythonRepl`) -/

namespace KernelRepl

/-- Status field of the kernel's `execute_reply`. -/
inductive ReplyStatus where
  | ok
  | error
  deriving DecidableEq, Repr

/-- The shell-channel reply to `kernel_client.execute` (its error fields
are empty for a successful reply). -/
structure ShellReply where
  status : ReplyStatus
  ename : String
  evalue : String
  traceback : List String
  deriving DecidableEq, Repr

/-- IOPub messages of the execution (already filtered to this request's
`msg_id`, which the source checks and skips otherwise).  `stream true`
is stdout, `stream false` stderr; `statusOther` is a non-idle status
message. -/
inductive IOPubMsg where
  | stream (isStdout : Bool) (text : String)
  | executeResult (textPlain : Option String)
  | displayData (textPlain : Option String)
  | errorMsg (ename evalue : String) (traceback : List String)
  | statusIdle
  | statusOther
  deriving DecidableEq, Repr

/-- The accumulators of `PythonRepl.run`: `stdout_list`, `stderr_list`,
`result`. -/
structure RunOut where
  stdoutList : List String
  stderrList : List String
  result : Option String
  deriving DecidableEq, Repr

/-- The IOPub loop of `run` (lines 237–277): process messages until the
`idle` status or the channel runs empty, accumulating stdout, stderr and
the execute result. -/
def iopubLoop (acc : RunOut) : List IOPubMsg → RunOut
  | [] => acc
  | m :: ms =>
    match m with
    | .stream true t => iopubLoop ⟨acc.stdoutList ++ [t], acc.stderrList, acc.result⟩ ms
    | .stream false t => iopubLoop ⟨acc.stdoutList, acc.stderrList ++ [t], acc.result⟩ ms
    | .executeResult r => iopubLoop ⟨acc.stdoutList, acc.stderrList, r⟩ ms
    | .displayData r =>
      iopubLoop ⟨acc.stdoutList ++ [r.getD "[display_data without text/plain]"], acc.stderrList, acc.result⟩ ms
    | .errorMsg e v tb =>
      iopubLoop ⟨acc.stdoutList, acc.stderrList ++ [e ++ ": " ++ v] ++ tb, acc.result⟩ ms
    | .statusIdle => acc
    | .statusOther => iopubLoop acc ms

/-- Connection state `run` checks on entry (`kernel_client` set and
alive). -/
structure KernelState where
  connected : Bool
  deriving DecidableEq, Repr

/-- The only exception `run` raises: `TimeoutError` when no shell reply
arrives within the timeout (lines 229–231). -/
inductive KernelError where
  | timeout
  deriving DecidableEq, Repr

/-- `PythonRepl.run` (lines 192–286).  A missing client returns `None`;
a missing shell reply raises `TimeoutError`; an `error`-status reply
appends `"{ename}: {evalue}"` and the traceback to `stderr_list` and the
call then completes normally through the IOPub loop.  Nothing is torn
down on any path. -/
def run (st : KernelState) (reply : Option ShellReply) (msgs : List IOPubMsg) :
    Except KernelError (Option RunOut) :=
  if st.connected then
    match reply with
    | none => .error .timeout
    | some rep =>
      let afterShell : RunOut :=
        if rep.status = ReplyStatus.error then
          ⟨[], (rep.ename ++ ": " ++ rep.evalue) :: rep.traceback, none⟩
        else ⟨[], [], none⟩
      .ok (some (iopubLoop afterShell msgs))
  else .ok none

/-- The final `output_data` dictionary (lines 280–284): stdout pieces are
concatenated, stderr pieces are joined with newlines. -/
def output_data (o : RunOut) : String × String × Option String :=
  (String.join o.stdoutList, joinNL o.stderrList, o.result)

/-- Resources `PythonRepl.close` may hold: the kernel client (with its
liveness), the container, and the temporary connection-file directory. -/
structure KState where
  kernelClient : Option Bool
  container : Bool
  tempDir : Bool
  deriving DecidableEq, Repr

/-- Observable effects of `PythonRepl.close` (lines 289–339). -/
inductive KAction where
  | unregisterAtexit
  | resetSignals
  | stopChannels
  | stopContainer
  | rmtree
  deriving DecidableEq, Repr

/-- `PythonRepl.close`: handler deregistration happens unconditionally;
channels are stopped only for a live client, the container stop and the
temp-dir removal only when still present; every field is cleared to
`None` afterwards, so the teardown branches cannot run twice. -/
def close (s : KState) : KState × List KAction :=
  (⟨none, false, false⟩,
    [KAction.unregisterAtexit, KAction.resetSignals] ++
      (match s.kernelClient with
        | some true => [KAction.stopChannels]
        | _ => []) ++
      (if s.container then [KAction.stopContainer] else []) ++
      (if s.tempDir then [KAction.rmtree] else []))

end KernelRepl

/-! ### PromptREPL — src/chat/executor/python_docker_repl.py -/

namespace PromptREPL

/-- Lines 74–76 of `run`: outputs of length at least 15 lose their last
15 characters (`output[:-15]`); what remains is returned, with the empty
string turned into `None`. -/
def truncateWrap (output : String) : Option String :=
  let out := if 15 ≤ output.length then String.mk (output.data.take (output.data.length - 15)) else output
  if out = "" then none else some out

/-- The claim's wording, stated as its own function for comparison with
the code: outputs with at least 15 characters have exactly their last 15
characters removed before being returned, shorter outputs are returned
whole, and an empty output is returned as `None`. -/
def truncateSpec (output : String) : Option String :=
  if output = "" then none
  else if 15 ≤ output.length then
    let t := String.mk (output.data.take (output.data.length - 15))
    if t = "" then none else some t
  else some output

/-- The post-capture processing of `run` (lines 65–76): strip the raw
capture, remove a leading echo of the code's first line
(`code.splitlines()[0]`, which presumes a non-empty fragment), then apply
the 15-character truncation.  Grounds `truncateWrap` in the call path. -/
def postprocess (before code : String) : Option String :=
  let output := pyStrip before
  let firstLine := (pySplitlines code).headD ""
  let output :=
    if firstLine.data.isPrefixOf output.data then pyLstrip (String.mk (output.data.drop firstLine.data.length))
    else output
  truncateWrap output

end PromptREPL

/-! ### Helper lemmas -/

theorem strData_inj {a b : String} (h : a.data = b.data) : a = b := by
  cases a
  cases b
  exact congrArg String.mk h

theorem strMk_data (s : String) : String.mk s.data = s := by
  cases s; rfl

theorem dropWhile_eq_self_of_all {p : Char → Bool} {l : List Char}
    (h : ∀ c ∈ l, p c = false) : l.dropWhile p = l := by
  cases l with
  | nil => rfl
  | cons c cs => simp [List.dropWhile, h c (List.mem_cons_self c cs)]

theorem pyStripChars_space_cons {cs : List Char}
    (h : ∀ c ∈ cs, isPySpace c = false) : pyStripChars (' ' :: cs) = cs := by
  unfold pyStripChars
  have h1 : List.dropWhile isPySpace (' ' :: cs) = List.dropWhile isPySpace cs :=
    List.dropWhile_cons_of_pos (by rfl)
  have h2 : List.dropWhile isPySpace cs = cs := dropWhile_eq_self_of_all h
  have h3 : List.dropWhile isPySpace cs.reverse = cs.reverse :=
    dropWhile_eq_self_of_all (fun c hc => h c (List.mem_reverse.mp hc))
  rw [h1, h2, h3, List.reverse_reverse]

theorem digitChar_not_space (n : Nat) : isPySpace (digitChar n) = false := by
  unfold digitChar
  split <;> rfl

theorem natDigits_not_space :
    ∀ (fuel n : Nat), ∀ c ∈ natDigits fuel n, isPySpace c = false := by
  intro fuel
  induction fuel with
  | zero => intro n c hc; simp [natDigits] at hc
  | succ f ih =>
    intro n c hc
    unfold natDigits at hc
    split at hc
    · rw [List.mem_singleton] at hc
      subst hc
      exact digitChar_not_space n
    · rcases List.mem_append.mp hc with h1 | h2
      · exact ih _ c h1
      · rw [List.mem_singleton] at h2
        subst h2
        exact digitChar_not_space (n % 10)

theorem pyRepr_not_space (v : PyVal) : ∀ c ∈ (pyRepr v).data, isPySpace c = false := by
  cases v with
  | noneV => decide
  | int n =>
    intro c hc
    simp only [pyRepr] at hc
    split at hc
    · rcases List.mem_cons.mp hc with h1 | h2
      · subst h1; rfl
      · exact natDigits_not_space _ _ c h2
    · exact natDigits_not_space _ _ c hc

theorem extract_markerLine (v : PyVal) :
    ChatREPL.extractRepr (ChatREPL.markerLine v) = some (pyRepr v) := by
  have hdata : (ChatREPL.markerLine v).data
      = ChatREPL.sentinelMark.data ++ (' ' :: (pyRepr v).data) := by
    show (ChatREPL.sentinelMark ++ " " ++ pyRepr v).data = _
    rw [String.data_append, String.data_append, List.append_assoc]
    rfl
  have hpre : ChatREPL.sentinelMark.data.isPrefixOf (ChatREPL.markerLine v).data = true := by
    rw [hdata]
    exact List.isPrefixOf_iff_prefix.mpr (List.prefix_append _ _)
  unfold ChatREPL.extractRepr
  rw [hpre, if_pos rfl, hdata, List.drop_left,
    pyStripChars_space_cons (pyRepr_not_space v), strMk_data]

theorem buildCommands_getLast (b : List PyStmt) (le : Option PyExpr) :
    (ChatREPL.buildCommands b le).getLast? = some ChatREPL.Command.printSentinel := by
  unfold ChatREPL.buildCommands
  exact List.getLast?_concat _

theorem iopubLoop_stderr_mono {x : String} :
    ∀ (ms : List KernelRepl.IOPubMsg) (acc : KernelRepl.RunOut),
      x ∈ acc.stderrList → x ∈ (KernelRepl.iopubLoop acc ms).stderrList := by
  intro ms
  induction ms with
  | nil => intro acc h; exact h
  | cons m ms ih =>
    intro acc h
    cases m with
    | stream isStdout t =>
      cases isStdout with
      | false => exact ih _ (List.mem_append_left _ h)
      | true => exact ih _ h
    | executeResult r => exact ih _ h
    | displayData r => exact ih _ h
    | errorMsg e v tb => exact ih _ (List.mem_append_left _ (List.mem_append_left _ h))
    | statusIdle => exact h
    | statusOther => exact ih _ h

/-! ### Claim theorems -/

/-- A two-line fragment for the splitter: `x = 1` followed by the bare
expression `x + 5`, with the `ast` line numbers of its two units. -/
def fexC3 : ParsedSrc := ⟨["x = 1", "x + 5"], [⟨.assignK, 1, 1⟩, ⟨.exprK, 2, 2⟩]⟩

/-- Claim C1 (counterexample): in `PythonDockerREPL.run` of
src/chat/executor/chatgpt/python_docker_repl.py the delimiter watched for
is the fixed string `__REPL_END__:` — two distinct calls on the same
session use the same sentinel string, so the sentinel is not freshly
generated per call. -/
theorem c1_counterexample :
    ChatREPL.sentinelOf ChatREPL.fragAssign = ChatREPL.sentinelOf ChatREPL.fragExpr ∧
    ChatREPL.fragAssign ≠ ChatREPL.fragExpr :=
  ⟨rfl, by decide⟩

/-- Claim C1 (amended): in the `_send` draft
(src/chat/executor/chatgpt/python_docker_reply.py) the sentinel
`__END_<uuid4 hex>__` is fresh per call — distinct uuid draws give
distinct sentinels — while the ast-based draft uses the one fixed
delimiter `__REPL_END__:` for every call and session. -/
theorem c1_amended :
    (∀ u v : String, u ≠ v → ReplyREPL.mkSentinel u ≠ ReplyREPL.mkSentinel v) ∧
    (∀ f : ChatREPL.SemFragment, ChatREPL.sentinelOf f = "__REPL_END__:") := by
  constructor
  · intro u v hne heq
    apply hne
    have h := congrArg String.data heq
    simp only [ReplyREPL.mkSentinel, String.data_append] at h
    exact strData_inj (List.append_cancel_left (List.append_cancel_right h))
  · intro f
    rfl

/-- Claim C1 witness: two concrete distinct uuid draws produce distinct
sentinels. -/
theorem c1_witness : ReplyREPL.mkSentinel "a" ≠ ReplyREPL.mkSentinel "b" :=
  c1_amended.1 "a" "b" (by decide)

/-- Claim C2: for every parsed fragment the payload `run` sends ends with
the single statement `print('__REPL_END__:', repr(_repl_result))`; the
line that statement prints is the sentinel followed by the stored repr of
the trailing expression's value, and the one sentinel read recovers
exactly that repr — no second round trip; when there is no trailing
expression the marker carries the explicit no-value repr `None`. -/
theorem c2_theorem (s : ChatREPL.ReplState) (f : ChatREPL.SemFragment)
    (units : List PyStmt) (h : f.parsed = some units) :
    (ChatREPL.run s f).sent.getLast? = some ChatREPL.Command.printSentinel ∧
    (∀ v, ChatREPL.markerLine v = ChatREPL.sentinelMark ++ " " ++ pyRepr v) ∧
    (∀ v, ChatREPL.extractRepr (ChatREPL.markerLine v) = some (pyRepr v)) ∧
    (∀ (env : Env) (b : List PyStmt),
      (ChatREPL.runCommands env (ChatREPL.buildCommands b none)).2
        = [ChatREPL.markerLine PyVal.noneV]) := by
  refine ⟨?_, fun v => rfl, extract_markerLine, ?_⟩
  · rcases f with ⟨t, po⟩
    cases po with
    | none => exact absurd h (by simp)
    | some us =>
      have hus : us = units := by simpa using h
      subst hus
      exact buildCommands_getLast _ _
  · intro env b
    cases b <;> rfl

/-- Claim C2 witness: the payload sent for the concrete fragment `x = 10`
ends with the sentinel print statement. -/
theorem c2_witness :
    (ChatREPL.run ChatREPL.initState ChatREPL.fragAssign).sent.getLast?
      = some ChatREPL.Command.printSentinel :=
  (c2_theorem ChatREPL.initState ChatREPL.fragAssign [.assign "x" (.lit 10)] rfl).1

/-- Claim C3: the splitter returns a trailing expression exactly when the
last top-level unit of the parsed fragment is a bare expression
(`ast.Expr`), and when it does, the body lines and the excised expression
lines recombine to the whole fragment (the split is computed from the
parse, the fragment arriving as `ast.parse` output). -/
theorem c3_theorem (f : ParsedSrc) :
    ((splitLinesOf f).2.isSome = true ↔
      (∃ u, f.body.getLast? = some u ∧ u.kind = AstKind.exprK)) ∧
    (∀ u, f.body.getLast? = some u → u.kind = AstKind.exprK →
      u.end_lineno = f.lines.length →
      (splitLinesOf f).1 ++ ((splitLinesOf f).2.getD []) = f.lines) := by
  constructor
  · unfold splitLinesOf
    cases hl : f.body.getLast? with
    | none => simp
    | some u =>
      by_cases hk : u.kind = AstKind.exprK
      · simp [hk]
      · simp [hk]
  · intro u hu hk hend
    have hlen : (f.lines.drop (u.lineno - 1)).length ≤ u.end_lineno - (u.lineno - 1) := by
      rw [List.length_drop, hend]
    simp only [splitLinesOf, hu, hk, if_true, Option.getD_some]
    rw [List.take_of_length_le hlen, List.take_append_drop]

/-- Claim C3 witness: splitting the concrete fragment `x = 1 ⏎ x + 5`
excises the trailing expression and the pieces recombine to the fragment's
lines. -/
theorem c3_witness :
    (splitLinesOf fexC3).1 ++ ((splitLinesOf fexC3).2.getD []) = fexC3.lines :=
  (c3_theorem fexC3).2 ⟨AstKind.exprK, 2, 2⟩ rfl rfl rfl

/-- Claim C4 (counterexample): on the syntactically invalid fragment
`def f(` the unguarded `ast.parse` at line 29 raises, `run` propagates the
local parse error, nothing is sent to the interpreter, and no result is
returned — contradicting the claim that the fragment is forwarded
unmodified and the call still returns a result. -/
theorem c4_counterexample :
    (ChatREPL.run ChatREPL.initState ChatREPL.badFrag).result
        = .error ChatREPL.ReplError.syntaxError ∧
    (ChatREPL.run ChatREPL.initState ChatREPL.badFrag).sent = [] ∧
    (ChatREPL.run ChatREPL.initState ChatREPL.badFrag).state = ChatREPL.initState :=
  ⟨rfl, rfl, rfl⟩

/-- Claim C4 (amended): for every syntactically invalid fragment `run`
raises the local `SyntaxError` from `ast.parse`; the fragment is never
forwarded to the interpreter and the session state is untouched. -/
theorem c4_amended (s : ChatREPL.ReplState) (f : ChatREPL.SemFragment)
    (h : f.parsed = none) :
    (ChatREPL.run s f).result = .error ChatREPL.ReplError.syntaxError ∧
    (ChatREPL.run s f).sent = [] ∧ (ChatREPL.run s f).state = s := by
  rcases f with ⟨t, po⟩
  cases po with
  | none => exact ⟨rfl, rfl, rfl⟩
  | some us => exact absurd h (by simp)

/-- Claim C4 witness: nothing is sent for the concrete invalid fragment
`def f(`. -/
theorem c4_witness : (ChatREPL.run ChatREPL.initState ChatREPL.badFrag).sent = [] :=
  (c4_amended ChatREPL.initState ChatREPL.badFrag rfl).2.1

/-- Claim C5: executing `x = 10` then `x + 5` on the same session yields
the captured textual value `"15"` (returned as the literal 15) on the
second call, while executing `x + 5` on a fresh session fails (the
`NameError` leaves `_repl_result` unassigned, the sentinel line never
prints, and the call raises `pexpect.TIMEOUT`): interpreter state does not
cross sessions. -/
theorem c5_theorem :
    (ChatREPL.run ChatREPL.initState ChatREPL.fragAssign).result = .ok none ∧
    (ChatREPL.run (ChatREPL.run ChatREPL.initState ChatREPL.fragAssign).state
        ChatREPL.fragExpr).result = .ok (some (PyVal.int 15)) ∧
    (ChatREPL.run (ChatREPL.run ChatREPL.initState ChatREPL.fragAssign).state
        ChatREPL.fragExpr).captured = some "15" ∧
    (ChatREPL.run ChatREPL.initState ChatREPL.fragExpr).result
        = .error ChatREPL.ReplError.timeout :=
  ⟨rfl, rfl, rfl, rfl⟩

/-- Claim C6 (counterexample): the fragment `1//0`, whose trailing
expression raises `ZeroDivisionError` inside the sandbox, does not
complete normally on a fresh session of the ast-based draft: the sentinel
line itself raises `NameError`, the call fails with `pexpect.TIMEOUT`, and
no output is captured. -/
theorem c6_counterexample :
    (ChatREPL.run ChatREPL.initState ChatREPL.fragDiv).result
        = .error ChatREPL.ReplError.timeout ∧
    (ChatREPL.run ChatREPL.initState ChatREPL.fragDiv).captured = none :=
  ⟨rfl, rfl⟩

/-- Claim C6 (amended): in the kernel draft (`PythonRepl.run`), a
sandboxed error is not a lifecycle failure: with the client connected, an
`error`-status reply makes the call return normally with
`"{ename}: {evalue}"` captured in the stderr output, whatever IOPub
messages follow; nothing is torn down. -/
theorem c6_amended (e v : String) (tb : List String) (msgs : List KernelRepl.IOPubMsg) :
    ∃ out, KernelRepl.run ⟨true⟩ (some ⟨KernelRepl.ReplyStatus.error, e, v, tb⟩) msgs
        = Except.ok (some out) ∧ (e ++ ": " ++ v) ∈ out.stderrList := by
  refine ⟨KernelRepl.iopubLoop ⟨[], (e ++ ": " ++ v) :: tb, none⟩ msgs, rfl, ?_⟩
  exact iopubLoop_stderr_mono msgs _ (List.mem_cons_self _ _)

/-- Claim C6 witness: the amended statement at a concrete division-error
reply with an empty IOPub stream. -/
theorem c6_witness :
    ∃ out, KernelRepl.run ⟨true⟩
        (some ⟨KernelRepl.ReplyStatus.error, "ZeroDivisionError", "division by zero", []⟩) []
        = Except.ok (some out) ∧
      ("ZeroDivisionError" ++ ": " ++ "division by zero") ∈ out.stderrList :=
  c6_amended "ZeroDivisionError" "division by zero" [] []

/-- Claim C7 (counterexample): `_clean_output` drops the interior blank
line of the genuine program output `a⏎⏎b` (which echoes nothing of the
code `x = 1`), returning `a⏎b` — interior blank lines are not
preserved. -/
theorem c7_counterexample :
    ReplyREPL.clean_output "a\n\nb" "x = 1" "print('__END_abc__')" = "a\nb" ∧
    "" ∈ pySplitlines "a\n\nb" ∧ "" ∉ ReplyREPL.echoLines "x = 1" :=
  ⟨rfl, by decide, by decide⟩

/-- Claim C7 (amended): the cleaning loop keeps exactly the
prompt-stripped capture lines that are not code echoes, not the sentinel
command, and not blank — so every blank line is removed, interior ones
included. -/
theorem c7_amended (raw code scmd ln : String) :
    ln ∈ ReplyREPL.cleanedLines raw code scmd ↔
      (ln ∈ (pySplitlines raw).map ReplyREPL.stripPrompt ∧
        ln ∉ ReplyREPL.echoLines code ∧ ln ≠ scmd ∧ pyStrip ln ≠ "") := by
  unfold ReplyREPL.cleanedLines
  rw [List.mem_filter]
  simp [List.contains, List.elem_iff, and_assoc]

/-- Claim C7 witness: the line `a` of the concrete capture survives the
cleaning loop. -/
theorem c7_witness :
    "a" ∈ ReplyREPL.cleanedLines "a\n\nb" "x = 1" "print('__END_abc__')" :=
  (c7_amended "a\n\nb" "x = 1" "print('__END_abc__')" "a").mpr
    ⟨by decide, by decide, by decide, by decide⟩

/-- Claim C8 (counterexample): in the chatgpt reply draft, a second
`close()` on an already-closed handle is not a no-op: it runs
`docker rm -f` again — a repeated teardown attempt. -/
theorem c8_counterexample :
    (ReplyREPL.close (ReplyREPL.close ⟨true⟩).1).2 = [ReplyREPL.RAction.dockerRmF] ∧
    (ReplyREPL.close (ReplyREPL.close ⟨true⟩).1).2 ≠ [] :=
  ⟨rfl, by decide⟩

/-- Claim C8 (amended): `PythonRepl.close` is idempotent — a second close
performs none of the teardown actions (only the unconditional handler
deregistration) and leaves the cleared state unchanged — while the
chatgpt reply draft's `close` re-runs the docker force-remove on every
call (its errors suppressed, so no error is raised either way). -/
theorem c8_amended (s : KernelRepl.KState) :
    (KernelRepl.close (KernelRepl.close s).1).2
        = [KernelRepl.KAction.unregisterAtexit, KernelRepl.KAction.resetSignals] ∧
    (KernelRepl.close (KernelRepl.close s).1).1 = (KernelRepl.close s).1 :=
  ⟨rfl, rfl⟩

/-- Claim C8 witness: the amended statement at a fully-live concrete
state. -/
theorem c8_witness :
    (KernelRepl.close (KernelRepl.close ⟨some true, true, true⟩).1).2
      = [KernelRepl.KAction.unregisterAtexit, KernelRepl.KAction.resetSignals] :=
  (c8_amended ⟨some true, true, true⟩).1

/-- Claim C9 (counterexample): a fragment whose execution never prints the
sentinel (`x + 5` on a fresh session) makes `run` fail with the timeout,
but afterwards the container is still alive and the session still accepts
and completes a further call — contradicting the claimed Errored state and
teardown. -/
theorem c9_counterexample :
    (ChatREPL.run ChatREPL.initState ChatREPL.fragExpr).result
        = .error ChatREPL.ReplError.timeout ∧
    (ChatREPL.run ChatREPL.initState ChatREPL.fragExpr).state.containerAlive = true ∧
    (ChatREPL.run (ChatREPL.run ChatREPL.initState ChatREPL.fragExpr).state
        ChatREPL.fragAssign).result = .ok none :=
  ⟨rfl, rfl, rfl⟩

/-- Claim C9 (amended): a fragment that never produces the sentinel makes
`run` fail with `pexpect.TIMEOUT`, but no teardown happens on any path:
`run` never changes the container's liveness, and the session object keeps
accepting calls. -/
theorem c9_amended :
    (∀ (s : ChatREPL.ReplState) (f : ChatREPL.SemFragment),
      (ChatREPL.run s f).state.containerAlive = s.containerAlive) ∧
    (ChatREPL.run ChatREPL.initState ChatREPL.fragExpr).result
        = .error ChatREPL.ReplError.timeout := by
  constructor
  · intro s f
    rcases f with ⟨t, po⟩
    cases po <;> rfl
  · rfl

/-- Claim C9 witness: liveness preservation at a concrete call. -/
theorem c9_witness :
    (ChatREPL.run ChatREPL.initState ChatREPL.fragAssign).state.containerAlive
      = ChatREPL.initState.containerAlive :=
  c9_amended.1 ChatREPL.initState ChatREPL.fragAssign

/-- Claim C10: the tail processing of the prompt-replacement draft's `run`
behaves exactly as claimed — captured outputs of length at least 15 lose
their last 15 characters before being returned, shorter outputs are
returned whole, and an empty output (before or after the cut) comes back
as `None`. -/
theorem c10_theorem (s : String) : PromptREPL.truncateWrap s = PromptREPL.truncateSpec s := by
  unfold PromptREPL.truncateWrap PromptREPL.truncateSpec
  by_cases h0 : s = ""
  · subst h0
    rfl
  · by_cases h15 : 15 ≤ s.length
    · simp [h0, h15]
    · simp [h0, h15]

/-- Claim C10 witness: the code and the claimed behaviour agree on a
concrete 16-character output. -/
theorem c10_witness :
    PromptREPL.truncateWrap "Xaaaaaaaaaaaaaaa" = PromptREPL.truncateSpec "Xaaaaaaaaaaaaaaa" :=
  c10_theorem "Xaaaaaaaaaaaaaaa"
